import Mathlib

/-!
Verification of the transaction scoring pipeline of the
CognitiveShield / BehaviorShield-AI repository.

Modelling conventions (shallow embedding of the Python source):

* Python floats are modelled as exact rationals (`ℚ`); Python `round(x, 4)`
  is modelled by `round4` below.  No claim here depends on float rounding
  noise or on the tie-breaking behaviour of `round`.
* Python dicts holding the feature map (insertion-ordered, string keys,
  numeric values) are modelled as association lists `List (String × ℚ)`,
  with `dictGet` modelling `d.get(key, default)`.
* ISO-8601 timestamp strings are modelled through their parse: a valid
  timestamp string is an instant, an integer number of seconds (`ℤ`);
  lexicographic order on equally formatted ISO strings agrees with
  chronological order, so the SQL `timestamp >= window_start` TEXT
  comparison is modelled by `≤` on `ℤ`.  The result of
  `datetime.fromisoformat` on an arbitrary string is an `Option ℤ`
  (`none` = `ValueError`/`TypeError`, i.e. an unparsable string, in which
  case the source sets `window_start = ""`, and every stored TEXT value
  satisfies `>= ""`).
* The SQLite tables are modelled as in-memory lists (`DBState`); `INSERT
  OR REPLACE` / upsert are modelled as remove-then-append keyed by the
  primary key, which realises the same keyed-map semantics.
* The opaque classifier artifact (scaler + model) of
  `fraud_prediction.predict_fraud` is an external parameter: an arbitrary
  function `score : List ℚ → ℚ` from the 24 aligned feature values to a
  fraud probability, together with an arbitrary `threshold : ℚ`.
-/

namespace FraudShield

/-- Python `round(x, 4)`: rounding a value to 4 decimal places. -/
def round4 (q : ℚ) : ℚ := ((round (q * 10000) : ℤ) : ℚ) / 10000

/-- `data_processing.LOCATIONS` — known categorical values from training. -/
def LOCATIONS : List String := ["Bangalore", "Delhi", "Kolkata", "Lucknow", "Mumbai"]

/-- `data_processing.DEVICES`. -/
def DEVICES : List String := ["Android_A", "Android_B", "iPhone_X", "iPhone_Y"]

/-- `data_processing.MERCHANTS`. -/
def MERCHANTS : List String := ["amazon@upi", "flipkart@upi", "gpay@upi", "paytm@upi", "phonepe@upi"]

/-- `data_processing.FEATURE_COLUMNS` — the exact feature column order
expected by the model. -/
def FEATURE_COLUMNS : List String :=
  ["amount", "hour", "user_id",
   "avg_user_amount", "amount_deviation", "is_night",
   "is_new_device", "location_change_flag", "is_new_merchant", "transaction_velocity",
   "location_Bangalore", "location_Delhi", "location_Kolkata", "location_Lucknow",
   "location_Mumbai",
   "device_id_Android_A", "device_id_Android_B", "device_id_iPhone_X", "device_id_iPhone_Y",
   "merchant_id_amazon@upi", "merchant_id_flipkart@upi",
   "merchant_id_gpay@upi", "merchant_id_paytm@upi", "merchant_id_phonepe@upi"]

/-- A raw transaction record (the immutable input produced by the
simulator): `transaction_id`, `user_id`, `amount`, `hour`, `device_id`,
`location`, `merchant_id`, `timestamp`.  The timestamp is the parsed
ISO-8601 instant in seconds (the simulator always produces a parsable
`datetime.now().isoformat()`). -/
structure Transaction where
  transaction_id : String
  user_id : ℤ
  amount : ℚ
  hour : ℤ
  device_id : String
  location : String
  merchant_id : String
  timestamp : ℤ
deriving DecidableEq

/-- A row of the `user_profiles` table (`database_manager._init_tables`);
the column defaults give the profile of a never-seen user.
`last_transaction_time = none` models the TEXT default `''`. -/
structure UserProfile where
  user_id : ℤ
  avg_amount : ℚ
  last_device : String
  usual_location : String
  transaction_count : ℕ
  last_transaction_time : Option ℤ
deriving DecidableEq

/-- The default profile returned by `DatabaseManager.get_user_profile`
for an unknown user. -/
def defaultProfile (uid : ℤ) : UserProfile :=
  { user_id := uid
    avg_amount := 0
    last_device := ""
    usual_location := ""
    transaction_count := 0
    last_transaction_time := none }

/-- `d.get(key, default)` on a Python dict modelled as an association
list in insertion order. -/
def dictGet (d : List (String × ℚ)) (key : String) (default : ℚ) : ℚ :=
  match d.find? (fun p => p.1 == key) with
  | some p => p.2
  | none => default

/-- `d.get(key)` without a default (`none` when the key is absent). -/
def dictFind (d : List (String × ℚ)) (key : String) : Option ℚ :=
  (d.find? (fun p => p.1 == key)).map Prod.snd

/-- `data_processing.compute_behavioral_features`: behavioral features of
a single transaction, as the insertion-ordered feature dict the source
builds (ten scalar features followed by the location, device and merchant
one-hot blocks). -/
def compute_behavioral_features (t : Transaction) (user_profile : UserProfile)
    (transaction_velocity : ℤ) : List (String × ℚ) :=
  let amount := t.amount
  let hour := t.hour
  let avg_amount := user_profile.avg_amount
  let last_device := user_profile.last_device
  let usual_location := user_profile.usual_location
  let amount_deviation :=
    if avg_amount > 0 then |amount - avg_amount| / max avg_amount 1 else 0
  let is_night : ℚ := if 0 ≤ hour ∧ hour ≤ 6 then 1 else 0
  let is_new_device : ℚ :=
    if last_device ≠ "" ∧ t.device_id ≠ last_device then 1 else 0
  let location_change_flag : ℚ :=
    if usual_location ≠ "" ∧ t.location ≠ usual_location then 1 else 0
  let is_new_merchant : ℚ := 0
  let velocity := max transaction_velocity 1
  [(("amount"), amount),
   (("hour"), (hour : ℚ)),
   (("user_id"), (t.user_id : ℚ)),
   (("avg_user_amount"), avg_amount),
   (("amount_deviation"), round4 amount_deviation),
   (("is_night"), is_night),
   (("is_new_device"), is_new_device),
   (("location_change_flag"), location_change_flag),
   (("is_new_merchant"), is_new_merchant),
   (("transaction_velocity"), (velocity : ℚ))]
  ++ LOCATIONS.map (fun loc => (("location_") ++ loc, if t.location = loc then (1 : ℚ) else 0))
  ++ DEVICES.map (fun dev => (("device_id_") ++ dev, if t.device_id = dev then (1 : ℚ) else 0))
  ++ MERCHANTS.map (fun m => (("merchant_id_") ++ m, if t.merchant_id = m then (1 : ℚ) else 0))

/-- `data_processing.build_feature_dataframe`: the single DataFrame row
aligned to `FEATURE_COLUMNS` — exact column order, missing columns filled
with 0, extra columns dropped. -/
def build_feature_dataframe (features : List (String × ℚ)) : List (String × ℚ) :=
  FEATURE_COLUMNS.map (fun col => (col, dictGet features col 0))

/-- One line of the explanation built by
`data_processing.generate_explanation`, as a typed finding (constructor =
which literal text the source emits, arguments = the values interpolated
into it). -/
inductive Line where
  | headerHighRisk : Line
  | headerNormal : Line
  | probability : ℚ → Line
  | unusualAmount : ℚ → Line
  | newDevice : Line
  | unusualTime : Option ℚ → Line
  | locationChange : Line
  | newMerchant : Line
  | rapidTransactions : ℚ → Line
  | noAnomalies : Line
deriving DecidableEq

/-- `data_processing.generate_explanation`: header line chosen by the
threshold comparison, the always-present probability line, the six
conditional anomaly lines appended in source order, and the final
`len(explanations) == 2` check appending the no-anomalies line. -/
def generate_explanation (features : List (String × ℚ)) (fraud_probability : ℚ)
    (threshold : ℚ) : List Line :=
  let withFlags :=
    [if fraud_probability ≥ threshold then Line.headerHighRisk else Line.headerNormal,
     Line.probability fraud_probability]
    ++ (if dictGet features ("amount_deviation") 0 > 3 / 2 then
          [Line.unusualAmount (dictGet features ("amount_deviation") 0)] else [])
    ++ (if dictGet features ("is_new_device") 0 = 1 then [Line.newDevice] else [])
    ++ (if dictGet features ("is_night") 0 = 1 then
          [Line.unusualTime (dictFind features ("hour"))] else [])
    ++ (if dictGet features ("location_change_flag") 0 = 1 then [Line.locationChange] else [])
    ++ (if dictGet features ("is_new_merchant") 0 = 1 then [Line.newMerchant] else [])
    ++ (if dictGet features ("transaction_velocity") 0 > 5 then
          [Line.rapidTransactions (dictGet features ("transaction_velocity") 0)] else [])
  if withFlags.length = 2 then withFlags ++ [Line.noAnomalies] else withFlags

/-- A stored row of the `transactions` table: the transaction fields plus
the scoring result columns (`database_manager._init_tables`). -/
structure TxnRow where
  transaction_id : String
  user_id : ℤ
  amount : ℚ
  hour : ℤ
  device_id : String
  location : String
  merchant_id : String
  fraud_probability : ℚ
  risk_level : String
  explanation : List Line
  timestamp : ℤ
deriving DecidableEq

/-- The SQLite database state: the `transactions` table and the
`user_profiles` table (one row per `user_id`). -/
structure DBState where
  transactions : List TxnRow
  user_profiles : List UserProfile
deriving DecidableEq

/-- A freshly initialised, empty database. -/
def emptyDB : DBState := { transactions := [], user_profiles := [] }

/-- `DatabaseManager.get_user_profile`: point lookup by `user_id`,
returning the all-default profile for an unknown user, never an error. -/
def get_user_profile (s : DBState) (uid : ℤ) : UserProfile :=
  match s.user_profiles.find? (fun p => p.user_id == uid) with
  | some p => p
  | none => defaultProfile uid

/-- Keyed upsert into `user_profiles` (the `INSERT ... ON CONFLICT(user_id)
DO UPDATE` statement): at most one row per `user_id`. -/
def upsertProfile (l : List UserProfile) (p : UserProfile) : List UserProfile :=
  l.filter (fun q => q.user_id != p.user_id) ++ [p]

/-- `DatabaseManager.update_user_profile`: reads the current profile,
computes the running average `new_avg = (avg_amount * transaction_count +
amount) / (transaction_count + 1)`, increments the count, and upserts the
row with the transaction's device, location and timestamp. -/
def update_user_profile (s : DBState) (uid : ℤ) (amount : ℚ) (device_id : String)
    (location : String) (timestamp : Option ℤ) : DBState :=
  let profile := get_user_profile s uid
  let count := profile.transaction_count + 1
  let new_avg := (profile.avg_amount * (profile.transaction_count : ℚ) + amount) / (count : ℚ)
  { s with
    user_profiles := upsertProfile s.user_profiles
      { user_id := uid
        avg_amount := new_avg
        last_device := device_id
        usual_location := location
        transaction_count := count
        last_transaction_time := timestamp } }

/-- `DatabaseManager.insert_transaction`: `INSERT OR REPLACE` keyed by
`transaction_id` — at most one stored row per id, the latest insert
winning. -/
def insert_transaction (s : DBState) (row : TxnRow) : DBState :=
  { s with
    transactions :=
      s.transactions.filter (fun r => r.transaction_id != row.transaction_id) ++ [row] }

/-- `DatabaseManager.get_transaction_velocity`: `current_time` is the parse
of the reference timestamp string (`none` = `datetime.fromisoformat`
raised).  On success the window start is `current_time − window_hours`
hours and the query counts the user's rows with `timestamp >=
window_start`; on failure `window_start = ""`, which every stored TEXT
timestamp satisfies, so all of the user's rows are counted. -/
def get_transaction_velocity (txns : List TxnRow) (uid : ℤ) (current_time : Option ℤ)
    (window_hours : ℤ) : ℕ :=
  match current_time with
  | some dt =>
      (txns.filter (fun r => r.user_id == uid && decide (dt - 3600 * window_hours ≤ r.timestamp))).length
  | none =>
      (txns.filter (fun r => r.user_id == uid)).length

/-- The risk classification of `fraud_prediction.predict_fraud` step 5:
`"HIGH RISK" if fraud_probability >= threshold else "LOW RISK"`. -/
def risk_level (fraud_probability threshold : ℚ) : String :=
  if fraud_probability ≥ threshold then ("HIGH RISK") else ("LOW RISK")

/-- The result dict of `fraud_prediction.predict_fraud`. -/
structure PredictionResult where
  fraud_probability : ℚ
  risk_level : String
  explanation : List Line
  features : List (String × ℚ)
deriving DecidableEq

/-- `fraud_prediction.predict_fraud`, parameterised by the opaque loaded
artifact: `score` is the composition of the scaler transform and
`model.predict_proba(...)[0][1]` on the 24 aligned feature values, and
`threshold` is the bundle's threshold. -/
def predict_fraud (score : List ℚ → ℚ) (threshold : ℚ) (t : Transaction)
    (user_profile : UserProfile) (transaction_velocity : ℤ) : PredictionResult :=
  let features := compute_behavioral_features t user_profile transaction_velocity
  let features_df := build_feature_dataframe features
  let fraud_probability := score (features_df.map Prod.snd)
  { fraud_probability := round4 fraud_probability
    risk_level := risk_level fraud_probability threshold
    explanation := generate_explanation features fraud_probability threshold
    features := features }

/-- `simulator.process_transaction`: fetch profile → fetch velocity →
predict → store the scored record → update the profile; returns the full
record together with the resulting database state.  The velocity reference
time is the transaction's own timestamp (always a parsable
`datetime.now().isoformat()` string from the simulator). -/
def process_transaction (score : List ℚ → ℚ) (threshold : ℚ) (s : DBState)
    (t : Transaction) : TxnRow × DBState :=
  let user_profile := get_user_profile s t.user_id
  let velocity := get_transaction_velocity s.transactions t.user_id (some t.timestamp) 1
  let result := predict_fraud score threshold t user_profile (velocity : ℤ)
  let full_record : TxnRow :=
    { transaction_id := t.transaction_id
      user_id := t.user_id
      amount := t.amount
      hour := t.hour
      device_id := t.device_id
      location := t.location
      merchant_id := t.merchant_id
      fraud_probability := result.fraud_probability
      risk_level := result.risk_level
      explanation := result.explanation
      timestamp := t.timestamp }
  let s1 := insert_transaction s full_record
  let s2 := update_user_profile s1 t.user_id t.amount t.device_id t.location (some t.timestamp)
  (full_record, s2)

/-- The values of one one-hot group, read back from a feature map in the
declared enumeration order (`pre` is the column prefix such as
`location_`). -/
def one_hot_block (features : List (String × ℚ)) (pre : String) (vals : List String) : List ℚ :=
  vals.map (fun v => dictGet features (pre ++ v) 0)

/-- The spec's enumeration (§4.5 item 3) of the conditional anomaly lines,
in its fixed order, each present exactly when its condition holds; stated
from the spec's words to be compared against `generate_explanation`. -/
def anomaly_lines (features : List (String × ℚ)) : List Line :=
  (if dictGet features ("amount_deviation") 0 > 3 / 2 then
      [Line.unusualAmount (dictGet features ("amount_deviation") 0)] else [])
  ++ (if dictGet features ("is_new_device") 0 = 1 then [Line.newDevice] else [])
  ++ (if dictGet features ("is_night") 0 = 1 then
        [Line.unusualTime (dictFind features ("hour"))] else [])
  ++ (if dictGet features ("location_change_flag") 0 = 1 then [Line.locationChange] else [])
  ++ (if dictGet features ("is_new_merchant") 0 = 1 then [Line.newMerchant] else [])
  ++ (if dictGet features ("transaction_velocity") 0 > 5 then
        [Line.rapidTransactions (dictGet features ("transaction_velocity") 0)] else [])

/-- The spec's velocity-counter operation (§4.3): `countSince(user_id,
referenceTimestamp, windowDuration)` counts the user's transactions with a
stored timestamp `≥ referenceTimestamp − windowDuration` (durations in
seconds); stated from the spec's words to be compared against
`get_transaction_velocity`. -/
def countSince (txns : List TxnRow) (uid : ℤ) (referenceTimestamp : ℤ)
    (windowDuration : ℤ) : ℕ :=
  (txns.filter (fun r => r.user_id == uid &&
    decide (referenceTimestamp - windowDuration ≤ r.timestamp))).length

/-- Feeding a list of amounts for one user through
`DatabaseManager.update_user_profile`, one call per amount (device,
location and timestamp do not affect the average or the count). -/
def feed_amounts (uid : ℤ) (amounts : List ℚ) (s : DBState) : DBState :=
  amounts.foldl (fun st a => update_user_profile st uid a ("") ("") none) s

/-- Sample transaction whose categorical values are all outside the known
enumerations (the spec's §8 end-to-end scenario). -/
def txnUnknown : Transaction :=
  { transaction_id := "TXN-UNKNOWN"
    user_id := 9001
    amount := 5000
    hour := 3
    device_id := "X"
    location := "Y"
    merchant_id := "Z@upi"
    timestamp := 1000000 }

/-- Sample benign transaction with known categorical values. -/
def txnKnown : Transaction :=
  { transaction_id := "TXN-KNOWN"
    user_id := 1001
    amount := 250
    hour := 12
    device_id := "Android_A"
    location := "Mumbai"
    merchant_id := "paytm@upi"
    timestamp := 1000000 }

/-- Sample established profile matching `txnKnown`'s habits. -/
def profileKnown : UserProfile :=
  { user_id := 1001
    avg_amount := 250
    last_device := "Android_A"
    usual_location := "Mumbai"
    transaction_count := 5
    last_transaction_time := some 990000 }

/-- A stored transaction row with the given user and timestamp and neutral
remaining columns (for concrete velocity scenarios). -/
def mkRow (uid ts : ℤ) : TxnRow :=
  { transaction_id := ""
    user_id := uid
    amount := 0
    hour := 0
    device_id := ""
    location := ""
    merchant_id := ""
    fraud_probability := 0
    risk_level := ""
    explanation := []
    timestamp := ts }

/-- A constant stand-in for the opaque classifier artifact. -/
def constScore : List ℚ → ℚ := fun _ => 1 / 2

/-! ### Helper lemmas -/

/-- Lookup after an upsert finds exactly the upserted row. -/
theorem find_upsertProfile (l : List UserProfile) (p : UserProfile) (uid : ℤ)
    (h : p.user_id = uid) :
    (upsertProfile l p).find? (fun q => q.user_id == uid) = some p := by
  induction l with
  | nil => simp [upsertProfile, List.find?, h]
  | cons q l ih =>
      by_cases hq : q.user_id = uid
      · simp [upsertProfile, List.filter_cons, h, hq]
      · simp [upsertProfile, List.filter_cons, h, hq, List.find?]

/-- `get_user_profile` after upserting a row keyed by `uid` returns that
row. -/
theorem get_user_profile_upsert (ps : List UserProfile) (txs : List TxnRow)
    (p : UserProfile) (uid : ℤ) (h : p.user_id = uid) :
    get_user_profile { transactions := txs, user_profiles := upsertProfile ps p } uid = p := by
  unfold get_user_profile
  simp only []
  rw [find_upsertProfile ps p uid h]

/-- One `update_user_profile` call replaces the stored profile with the
incremented count, the running-average value, and the transaction's device,
location and timestamp. -/
theorem get_user_profile_update (s : DBState) (uid : ℤ) (a : ℚ) (d loc : String)
    (ts : Option ℤ) :
    get_user_profile (update_user_profile s uid a d loc ts) uid =
      { user_id := uid
        avg_amount := ((get_user_profile s uid).avg_amount *
          ((get_user_profile s uid).transaction_count : ℚ) + a) /
          (((get_user_profile s uid).transaction_count : ℚ) + 1)
        last_device := d
        usual_location := loc
        transaction_count := (get_user_profile s uid).transaction_count + 1
        last_transaction_time := ts } := by
  conv_lhs => rw [update_user_profile]
  rw [get_user_profile_upsert _ _ _ _ rfl]
  push_cast
  rfl

/-- Running-average invariant of repeated profile updates: the count grows
by the number of fed amounts and `avg_amount * count` accumulates their
sum. -/
theorem feed_amounts_invariant (uid : ℤ) (amounts : List ℚ) (s : DBState) :
    (get_user_profile (feed_amounts uid amounts s) uid).transaction_count
        = (get_user_profile s uid).transaction_count + amounts.length ∧
    (get_user_profile (feed_amounts uid amounts s) uid).avg_amount *
        (((get_user_profile s uid).transaction_count : ℚ) + amounts.length)
      = (get_user_profile s uid).avg_amount * ((get_user_profile s uid).transaction_count : ℚ)
        + amounts.sum := by
  induction amounts generalizing s with
  | nil => simp [feed_amounts]
  | cons a rest ih =>
      have hstep := get_user_profile_update s uid a ("") ("") none
      have hfold : feed_amounts uid (a :: rest) s =
          feed_amounts uid rest (update_user_profile s uid a ("") ("") none) := rfl
      obtain ⟨ih1, ih2⟩ := ih (update_user_profile s uid a ("") ("") none)
      rw [hstep] at ih1 ih2
      simp only at ih1 ih2
      rw [hfold]
      set A := (get_user_profile s uid).avg_amount with hA
      set c := (get_user_profile s uid).transaction_count with hc
      have hc1 : ((c : ℚ) + 1) ≠ 0 := by positivity
      refine ⟨by rw [ih1]; simp [List.length_cons]; omega, ?_⟩
      have goalA : (get_user_profile (feed_amounts uid rest
          (update_user_profile s uid a ("") ("") none)) uid).avg_amount *
          ((c : ℚ) + (rest.length + 1))
          = A * c + (a + rest.sum) := by
        push_cast at ih2
        calc (get_user_profile (feed_amounts uid rest
              (update_user_profile s uid a ("") ("") none)) uid).avg_amount *
              ((c : ℚ) + (rest.length + 1))
            = (get_user_profile (feed_amounts uid rest
              (update_user_profile s uid a ("") ("") none)) uid).avg_amount *
              (((c : ℚ) + 1) + rest.length) := by ring
          _ = (A * c + a) / ((c : ℚ) + 1) * (((c : ℚ) + 1)) + rest.sum := by
              rw [← ih2]
          _ = A * c + a + rest.sum := by
              rw [div_mul_cancel₀ _ hc1]
          _ = A * c + (a + rest.sum) := by ring
      simpa using goalA

/-- The explanation list is the header, the probability line, the anomaly
lines in order, and — exactly when no anomaly line was emitted — the final
no-anomalies line.  (`withFlags` of the source is definitionally the
header-and-probability prefix consed onto `anomaly_lines`.) -/
theorem generate_explanation_shape (f : List (String × ℚ)) (p th : ℚ) :
    generate_explanation f p th =
      ((if p ≥ th then Line.headerHighRisk else Line.headerNormal) ::
        Line.probability p :: anomaly_lines f)
      ++ (if anomaly_lines f = [] then [Line.noAnomalies] else []) := by
  have key : ∀ (hdr : Line) (A : List Line),
      (if (hdr :: Line.probability p :: A).length = 2
        then (hdr :: Line.probability p :: A) ++ [Line.noAnomalies]
        else hdr :: Line.probability p :: A)
      = (hdr :: Line.probability p :: A) ++ (if A = [] then [Line.noAnomalies] else []) := by
    intro hdr A
    cases A <;> simp
  exact key _ (anomaly_lines f)

/-- Value of the `amount_deviation` feature. -/
theorem feat_amount_deviation (t : Transaction) (p : UserProfile) (v : ℤ) :
    dictGet (compute_behavioral_features t p v) ("amount_deviation") 0 =
      round4 (if p.avg_amount > 0 then |t.amount - p.avg_amount| / max p.avg_amount 1
        else 0) := rfl

/-- Value of the `is_new_device` feature. -/
theorem feat_is_new_device (t : Transaction) (p : UserProfile) (v : ℤ) :
    dictGet (compute_behavioral_features t p v) ("is_new_device") 0 =
      (if p.last_device ≠ "" ∧ t.device_id ≠ p.last_device then (1 : ℚ) else 0) := rfl

/-- Value of the `is_night` feature. -/
theorem feat_is_night (t : Transaction) (p : UserProfile) (v : ℤ) :
    dictGet (compute_behavioral_features t p v) ("is_night") 0 =
      (if 0 ≤ t.hour ∧ t.hour ≤ 6 then (1 : ℚ) else 0) := rfl

/-- Value of the `location_change_flag` feature. -/
theorem feat_location_change (t : Transaction) (p : UserProfile) (v : ℤ) :
    dictGet (compute_behavioral_features t p v) ("location_change_flag") 0 =
      (if p.usual_location ≠ "" ∧ t.location ≠ p.usual_location then (1 : ℚ) else 0) := rfl

/-- Value of the `is_new_merchant` feature. -/
theorem feat_is_new_merchant (t : Transaction) (p : UserProfile) (v : ℤ) :
    dictGet (compute_behavioral_features t p v) ("is_new_merchant") 0 = 0 := rfl

/-- Value of the `transaction_velocity` feature. -/
theorem feat_velocity (t : Transaction) (p : UserProfile) (v : ℤ) :
    dictGet (compute_behavioral_features t p v) ("transaction_velocity") 0 =
      ((max v 1 : ℤ) : ℚ) := rfl

/-- Value of the `avg_user_amount` feature. -/
theorem feat_avg_user_amount (t : Transaction) (p : UserProfile) (v : ℤ) :
    dictGet (compute_behavioral_features t p v) ("avg_user_amount") 0 = p.avg_amount := rfl

/-- The new-merchant line can only come from the new-merchant condition. -/
theorem newMerchant_not_mem_anomaly_lines (f : List (String × ℚ))
    (h : dictGet f ("is_new_merchant") 0 ≠ 1) :
    Line.newMerchant ∉ anomaly_lines f := by
  unfold anomaly_lines
  simp only [List.mem_append, List.mem_singleton]
  split_ifs <;> simp_all

/-! ### Claim theorems -/

/-- Claim C1: for every transaction, profile and velocity input, the
feature vector aligned by `build_feature_dataframe` has exactly the 24
`FEATURE_COLUMNS` fields in their fixed order; each one-hot block sums to
at most 1; and an unrecognized location, device or merchant yields an
all-zero block for its group rather than an error. -/
theorem C1_feature_schema (t : Transaction) (p : UserProfile) (v : ℤ) :
    (build_feature_dataframe (compute_behavioral_features t p v)).map Prod.fst
        = FEATURE_COLUMNS ∧
    (build_feature_dataframe (compute_behavioral_features t p v)).length = 24 ∧
    (one_hot_block (build_feature_dataframe (compute_behavioral_features t p v))
        ("location_") LOCATIONS).sum ≤ 1 ∧
    (one_hot_block (build_feature_dataframe (compute_behavioral_features t p v))
        ("device_id_") DEVICES).sum ≤ 1 ∧
    (one_hot_block (build_feature_dataframe (compute_behavioral_features t p v))
        ("merchant_id_") MERCHANTS).sum ≤ 1 ∧
    (t.location ∉ LOCATIONS →
      one_hot_block (build_feature_dataframe (compute_behavioral_features t p v))
        ("location_") LOCATIONS = [0, 0, 0, 0, 0]) ∧
    (t.device_id ∉ DEVICES →
      one_hot_block (build_feature_dataframe (compute_behavioral_features t p v))
        ("device_id_") DEVICES = [0, 0, 0, 0]) ∧
    (t.merchant_id ∉ MERCHANTS →
      one_hot_block (build_feature_dataframe (compute_behavioral_features t p v))
        ("merchant_id_") MERCHANTS = [0, 0, 0, 0, 0]) := by
  have hloc : one_hot_block (build_feature_dataframe (compute_behavioral_features t p v))
      ("location_") LOCATIONS =
      [if t.location = "Bangalore" then (1 : ℚ) else 0,
       if t.location = "Delhi" then (1 : ℚ) else 0,
       if t.location = "Kolkata" then (1 : ℚ) else 0,
       if t.location = "Lucknow" then (1 : ℚ) else 0,
       if t.location = "Mumbai" then (1 : ℚ) else 0] := rfl
  have hdev : one_hot_block (build_feature_dataframe (compute_behavioral_features t p v))
      ("device_id_") DEVICES =
      [if t.device_id = "Android_A" then (1 : ℚ) else 0,
       if t.device_id = "Android_B" then (1 : ℚ) else 0,
       if t.device_id = "iPhone_X" then (1 : ℚ) else 0,
       if t.device_id = "iPhone_Y" then (1 : ℚ) else 0] := rfl
  have hmer : one_hot_block (build_feature_dataframe (compute_behavioral_features t p v))
      ("merchant_id_") MERCHANTS =
      [if t.merchant_id = "amazon@upi" then (1 : ℚ) else 0,
       if t.merchant_id = "flipkart@upi" then (1 : ℚ) else 0,
       if t.merchant_id = "gpay@upi" then (1 : ℚ) else 0,
       if t.merchant_id = "paytm@upi" then (1 : ℚ) else 0,
       if t.merchant_id = "phonepe@upi" then (1 : ℚ) else 0] := rfl
  refine ⟨rfl, rfl, ?_, ?_, ?_, ?_, ?_, ?_⟩
  · rw [hloc]
    split_ifs <;> simp_all
  · rw [hdev]
    split_ifs <;> simp_all
  · rw [hmer]
    split_ifs <;> simp_all
  · intro hm
    simp only [LOCATIONS, List.mem_cons, List.not_mem_nil, or_false, not_or] at hm
    obtain ⟨h1, h2, h3, h4, h5⟩ := hm
    rw [hloc]
    simp [h1, h2, h3, h4, h5]
  · intro hm
    simp only [DEVICES, List.mem_cons, List.not_mem_nil, or_false, not_or] at hm
    obtain ⟨h1, h2, h3, h4⟩ := hm
    rw [hdev]
    simp [h1, h2, h3, h4]
  · intro hm
    simp only [MERCHANTS, List.mem_cons, List.not_mem_nil, or_false, not_or] at hm
    obtain ⟨h1, h2, h3, h4, h5⟩ := hm
    rw [hmer]
    simp [h1, h2, h3, h4, h5]

/-- Witness for C1 at a transaction whose location, device and merchant
are all outside the known enumerations. -/
theorem C1_feature_schema_witness :
    txnUnknown.location ∉ LOCATIONS ∧
    txnUnknown.device_id ∉ DEVICES ∧
    txnUnknown.merchant_id ∉ MERCHANTS ∧
    (build_feature_dataframe (compute_behavioral_features txnUnknown (defaultProfile 9001) 0)).map
        Prod.fst = FEATURE_COLUMNS ∧
    one_hot_block (build_feature_dataframe (compute_behavioral_features txnUnknown
        (defaultProfile 9001) 0)) ("location_") LOCATIONS = [0, 0, 0, 0, 0] ∧
    one_hot_block (build_feature_dataframe (compute_behavioral_features txnUnknown
        (defaultProfile 9001) 0)) ("device_id_") DEVICES = [0, 0, 0, 0] ∧
    one_hot_block (build_feature_dataframe (compute_behavioral_features txnUnknown
        (defaultProfile 9001) 0)) ("merchant_id_") MERCHANTS = [0, 0, 0, 0, 0] := by
  have h := C1_feature_schema txnUnknown (defaultProfile 9001) 0
  refine ⟨by decide, by decide, by decide, h.1, ?_, ?_, ?_⟩
  · exact h.2.2.2.2.2.1 (by decide)
  · exact h.2.2.2.2.2.2.1 (by decide)
  · exact h.2.2.2.2.2.2.2 (by decide)

/-- Claim C2: each profile update applies `new_avg = (old_avg * old_count
+ new_amount) / (old_count + 1)` and increments the count, so `avg_amount`
stays the arithmetic mean of all amounts ever observed; from the default
profile, feeding 100, 200, 300 yields `avg_amount = 200` and
`transaction_count = 3`. -/
theorem C2_running_average (uid : ℤ) (amounts : List ℚ) :
    (∀ (s : DBState) (a : ℚ) (d loc : String) (ts : Option ℤ),
      (get_user_profile (update_user_profile s uid a d loc ts) uid).avg_amount
          = ((get_user_profile s uid).avg_amount *
              ((get_user_profile s uid).transaction_count : ℚ) + a) /
            (((get_user_profile s uid).transaction_count : ℚ) + 1) ∧
      (get_user_profile (update_user_profile s uid a d loc ts) uid).transaction_count
          = (get_user_profile s uid).transaction_count + 1) ∧
    (get_user_profile (feed_amounts uid amounts emptyDB) uid).transaction_count
        = amounts.length ∧
    (amounts ≠ [] →
      (get_user_profile (feed_amounts uid amounts emptyDB) uid).avg_amount
          = amounts.sum / (amounts.length : ℚ)) ∧
    (get_user_profile (feed_amounts uid [100, 200, 300] emptyDB) uid).avg_amount = 200 ∧
    (get_user_profile (feed_amounts uid [100, 200, 300] emptyDB) uid).transaction_count = 3 := by
  have hdefault : get_user_profile emptyDB uid = defaultProfile uid := rfl
  have hinv := feed_amounts_invariant uid amounts emptyDB
  rw [hdefault] at hinv
  simp only [defaultProfile] at hinv
  obtain ⟨hcount, havg⟩ := hinv
  have hmean : amounts ≠ [] →
      (get_user_profile (feed_amounts uid amounts emptyDB) uid).avg_amount
        = amounts.sum / (amounts.length : ℚ) := by
    intro hne
    have hlen : (amounts.length : ℚ) ≠ 0 := by
      simp [List.length_eq_zero, hne]
    rw [eq_div_iff hlen]
    simpa using havg
  have hinv3 := feed_amounts_invariant uid [100, 200, 300] emptyDB
  rw [hdefault] at hinv3
  simp only [defaultProfile] at hinv3
  obtain ⟨hcount3, havg3⟩ := hinv3
  refine ⟨?_, by simpa using hcount, hmean, ?_, by simpa using hcount3⟩
  · intro s a d loc ts
    rw [get_user_profile_update]
    exact ⟨rfl, rfl⟩
  · have hsum : (get_user_profile (feed_amounts uid [100, 200, 300] emptyDB) uid).avg_amount *
        3 = 600 := by
      norm_num at havg3
      linarith
    linarith

/-- Witness for C2: the running average after amounts 100, 200, 300 for
one concrete user. -/
theorem C2_running_average_witness :
    ([100, 200, 300] : List ℚ) ≠ [] ∧
    (get_user_profile (feed_amounts 42 ([100, 200, 300] : List ℚ) emptyDB) 42).avg_amount
        = ([100, 200, 300] : List ℚ).sum / (([100, 200, 300] : List ℚ).length : ℚ) ∧
    (get_user_profile (feed_amounts 42 [100, 200, 300] emptyDB) 42).avg_amount = 200 ∧
    (get_user_profile (feed_amounts 42 [100, 200, 300] emptyDB) 42).transaction_count = 3 := by
  have h := C2_running_average 42 ([100, 200, 300] : List ℚ)
  exact ⟨by decide, h.2.2.1 (by decide), h.2.2.2.1, h.2.2.2.2⟩

/-- Claim C3: risk classification is a pure threshold function with an
inclusive boundary — `HIGH RISK` exactly when the probability is at least
the threshold, `LOW RISK` otherwise, a probability equal to the threshold
classifying as `HIGH RISK` — and the explanation's header line is chosen
by the same comparison. -/
theorem C3_inclusive_threshold (p th : ℚ) (f : List (String × ℚ)) :
    (risk_level p th = ("HIGH RISK") ↔ p ≥ th) ∧
    (risk_level p th = ("LOW RISK") ↔ p < th) ∧
    risk_level th th = ("HIGH RISK") ∧
    ((generate_explanation f p th).head? = some Line.headerHighRisk ↔ p ≥ th) ∧
    ((generate_explanation f p th).head? = some Line.headerNormal ↔ p < th) := by
  have hhead : (generate_explanation f p th).head? =
      some (if p ≥ th then Line.headerHighRisk else Line.headerNormal) := by
    rw [generate_explanation_shape]
    rfl
  refine ⟨?_, ?_, ?_, ?_, ?_⟩
  · unfold risk_level
    split_ifs with h
    · simp [h]
    · simp [h]
  · unfold risk_level
    split_ifs with h
    · simp [not_lt.mpr h]
    · simp [not_le.mp h]
  · unfold risk_level
    simp
  · rw [hhead]
    split_ifs with h
    · simp [h]
    · simp [h]
  · rw [hhead]
    split_ifs with h
    · simp [not_lt.mpr h]
    · simp [not_le.mp h]

/-- Witness for C3 at the boundary `probability = threshold`. -/
theorem C3_inclusive_threshold_witness :
    risk_level (1 / 2) (1 / 2) = ("HIGH RISK") ∧
    (generate_explanation [] (1 / 2) (1 / 2)).head? = some Line.headerHighRisk := by
  have h := C3_inclusive_threshold (1 / 2) (1 / 2) []
  exact ⟨h.2.2.1, h.2.2.2.1.mpr (by norm_num)⟩

/-- Claim C4: `amount_deviation` is 0 when the profile's average is not
strictly positive, and otherwise `|amount − avg_amount| / max(avg_amount,
1)` rounded to 4 decimal places. -/
theorem C4_amount_deviation (t : Transaction) (p : UserProfile) (v : ℤ) :
    dictGet (compute_behavioral_features t p v) ("amount_deviation") 0 =
      if 0 < p.avg_amount then round4 (|t.amount - p.avg_amount| / max p.avg_amount 1)
      else 0 := by
  have h : dictGet (compute_behavioral_features t p v) ("amount_deviation") 0 =
      round4 (if p.avg_amount > 0 then |t.amount - p.avg_amount| / max p.avg_amount 1
        else 0) := rfl
  rw [h]
  split_ifs with hpos
  · rfl
  · norm_num [round4]

/-- Witness for C4 with a zero-average (new-user) profile and with an
established profile. -/
theorem C4_amount_deviation_witness :
    dictGet (compute_behavioral_features txnUnknown (defaultProfile 9001) 0)
        ("amount_deviation") 0 =
      (if 0 < (defaultProfile 9001).avg_amount then
        round4 (|txnUnknown.amount - (defaultProfile 9001).avg_amount| /
          max (defaultProfile 9001).avg_amount 1)
      else 0) ∧
    dictGet (compute_behavioral_features txnKnown profileKnown 1)
        ("amount_deviation") 0 =
      (if 0 < profileKnown.avg_amount then
        round4 (|txnKnown.amount - profileKnown.avg_amount| / max profileKnown.avg_amount 1)
      else 0) :=
  ⟨C4_amount_deviation txnUnknown (defaultProfile 9001) 0,
   C4_amount_deviation txnKnown profileKnown 1⟩

/-- Claim C5: the explanation is exactly the threshold-chosen header,
the always-present probability line, then the anomaly lines in their fixed
order each under its own condition, with the no-anomalies line appended
exactly when no anomaly line was emitted; no triggered flags give exactly
the two mandatory lines plus the no-anomalies line. -/
theorem C5_explanation_lines (f : List (String × ℚ)) (p th : ℚ) :
    generate_explanation f p th =
      ((if p ≥ th then Line.headerHighRisk else Line.headerNormal) ::
        Line.probability p :: anomaly_lines f)
      ++ (if anomaly_lines f = [] then [Line.noAnomalies] else []) ∧
    (anomaly_lines f = [] →
      generate_explanation f p th =
        [if p ≥ th then Line.headerHighRisk else Line.headerNormal,
         Line.probability p, Line.noAnomalies]) := by
  refine ⟨generate_explanation_shape f p th, ?_⟩
  intro hnone
  rw [generate_explanation_shape f p th, hnone]
  simp

/-- Witness for C5: a benign transaction from an established profile
triggers no flags, so the explanation is exactly three lines. -/
theorem C5_explanation_lines_witness :
    anomaly_lines (compute_behavioral_features txnKnown profileKnown 1) = [] ∧
    generate_explanation (compute_behavioral_features txnKnown profileKnown 1)
        (1 / 10) (1 / 2) =
      [if (1 / 10 : ℚ) ≥ 1 / 2 then Line.headerHighRisk else Line.headerNormal,
       Line.probability (1 / 10), Line.noAnomalies] := by
  have hnone : anomaly_lines (compute_behavioral_features txnKnown profileKnown 1) = [] := by
    unfold anomaly_lines
    rw [feat_amount_deviation, feat_is_new_device, feat_is_night, feat_location_change,
      feat_is_new_merchant, feat_velocity]
    norm_num [txnKnown, profileKnown, round4]
  exact ⟨hnone, (C5_explanation_lines
    (compute_behavioral_features txnKnown profileKnown 1) (1 / 10) (1 / 2)).2 hnone⟩

/-- Claim C6: with a parsable reference timestamp the velocity counter
returns the number of the user's stored transactions with timestamp at
least `reference − window` (so rows at `T−2h`, `T−30m`, `T−5m` with a
1-hour window at `T` count as 2); with an unparsable reference it falls
back to counting all of the user's stored transactions. -/
theorem C6_velocity_window (txns : List TxnRow) (uid : ℤ) (t : ℤ) (w : ℤ) :
    get_transaction_velocity txns uid (some t) w = countSince txns uid t (3600 * w) ∧
    get_transaction_velocity txns uid none w =
      (txns.filter (fun r => r.user_id == uid)).length ∧
    (∀ (T : ℤ) (r1 r2 r3 : TxnRow),
      r1.user_id = uid → r2.user_id = uid → r3.user_id = uid →
      r1.timestamp = T - 7200 → r2.timestamp = T - 1800 → r3.timestamp = T - 300 →
      get_transaction_velocity [r1, r2, r3] uid (some T) 1 = 2) := by
  refine ⟨rfl, rfl, ?_⟩
  intro T r1 r2 r3 h1 h2 h3 ht1 ht2 ht3
  have c1 : ¬ (T ≤ T - 7200 + 3600) := by omega
  have c2 : T ≤ T - 1800 + 3600 := by omega
  have c3 : T ≤ T - 300 + 3600 := by omega
  simp [get_transaction_velocity, List.filter_cons, h1, h2, h3, ht1, ht2, ht3, c1, c2, c3]

/-- Witness for C6: three stored rows 2h, 30min and 5min before a
reference time 10000, 1-hour window — exactly 2 are counted. -/
theorem C6_velocity_window_witness :
    get_transaction_velocity [mkRow 5 2800, mkRow 5 8200, mkRow 5 9700] 5 (some 10000) 1 = 2 :=
  (C6_velocity_window [] 5 0 0).2.2 10000 (mkRow 5 2800) (mkRow 5 8200) (mkRow 5 9700)
    rfl rfl rfl (by decide) (by decide) (by decide)

/-- Claim C7: `is_new_device` is 1 iff the profile's `last_device` is
non-empty and differs from the transaction's `device_id` (a user with no
prior device never triggers it), and `location_change_flag` follows the
identical rule against `usual_location`. -/
theorem C7_device_location_flags (t : Transaction) (p : UserProfile) (v : ℤ) :
    (dictGet (compute_behavioral_features t p v) ("is_new_device") 0 = 1 ↔
      (p.last_device ≠ "" ∧ t.device_id ≠ p.last_device)) ∧
    (p.last_device = "" →
      dictGet (compute_behavioral_features t p v) ("is_new_device") 0 = 0) ∧
    (dictGet (compute_behavioral_features t p v) ("location_change_flag") 0 = 1 ↔
      (p.usual_location ≠ "" ∧ t.location ≠ p.usual_location)) ∧
    (p.usual_location = "" →
      dictGet (compute_behavioral_features t p v) ("location_change_flag") 0 = 0) := by
  rw [feat_is_new_device, feat_location_change]
  refine ⟨?_, ?_, ?_, ?_⟩
  · split_ifs with h <;> simp [h]
  · intro h
    simp [h]
  · split_ifs with h <;> simp [h]
  · intro h
    simp [h]

/-- Witness for C7: an established profile with a different device
triggers the flag, a default (empty) profile never does. -/
theorem C7_device_location_flags_witness :
    dictGet (compute_behavioral_features txnUnknown profileKnown 1) ("is_new_device") 0 = 1 ∧
    dictGet (compute_behavioral_features txnUnknown (defaultProfile 9001) 1)
      ("is_new_device") 0 = 0 ∧
    dictGet (compute_behavioral_features txnUnknown (defaultProfile 9001) 1)
      ("location_change_flag") 0 = 0 :=
  ⟨(C7_device_location_flags txnUnknown profileKnown 1).1.mpr (by decide),
   (C7_device_location_flags txnUnknown (defaultProfile 9001) 1).2.1 rfl,
   (C7_device_location_flags txnUnknown (defaultProfile 9001) 1).2.2.2 rfl⟩

/-- Claim C8: `is_new_merchant` is 0 for every input, and the new-merchant
explanation line is never emitted for features the feature engine
produced. -/
theorem C8_new_merchant_dormant (t : Transaction) (p : UserProfile) (v : ℤ)
    (prob th : ℚ) :
    dictGet (compute_behavioral_features t p v) ("is_new_merchant") 0 = 0 ∧
    Line.newMerchant ∉ generate_explanation (compute_behavioral_features t p v) prob th := by
  refine ⟨feat_is_new_merchant t p v, ?_⟩
  have hna := newMerchant_not_mem_anomaly_lines (compute_behavioral_features t p v)
    (by rw [feat_is_new_merchant]; norm_num)
  rw [generate_explanation_shape]
  intro hmem
  simp only [List.mem_append, List.mem_cons] at hmem
  rcases hmem with (h1 | h2 | h3) | h4
  · revert h1
    split_ifs <;> simp
  · simp at h2
  · exact hna h3
  · revert h4
    split_ifs <;> simp

/-- Witness for C8 at a concrete scored transaction. -/
theorem C8_new_merchant_dormant_witness :
    dictGet (compute_behavioral_features txnKnown profileKnown 1) ("is_new_merchant") 0 = 0 ∧
    Line.newMerchant ∉ generate_explanation (compute_behavioral_features txnKnown profileKnown 1)
      (1 / 10) (1 / 2) :=
  C8_new_merchant_dormant txnKnown profileKnown 1 (1 / 10) (1 / 2)

/-- Claim C9: `transaction_velocity` equals `max(velocity, 1)`: counter
values below 1 are clamped to 1, so the feature is always at least 1. -/
theorem C9_velocity_clamp (t : Transaction) (p : UserProfile) (v : ℤ) :
    dictGet (compute_behavioral_features t p v) ("transaction_velocity") 0 =
      ((max v 1 : ℤ) : ℚ) ∧
    1 ≤ dictGet (compute_behavioral_features t p v) ("transaction_velocity") 0 ∧
    (v ≤ 0 → dictGet (compute_behavioral_features t p v) ("transaction_velocity") 0 = 1) := by
  refine ⟨feat_velocity t p v, ?_, ?_⟩
  · rw [feat_velocity]
    exact_mod_cast le_max_right v 1
  · intro h
    rw [feat_velocity]
    have hm : max v 1 = 1 := by omega
    rw [hm]
    norm_num

/-- Witness for C9: a user with no history (velocity counter 0) gets a
clamped velocity of 1. -/
theorem C9_velocity_clamp_witness :
    dictGet (compute_behavioral_features txnUnknown (defaultProfile 9001) 0)
      ("transaction_velocity") 0 = 1 :=
  (C9_velocity_clamp txnUnknown (defaultProfile 9001) 0).2.2 le_rfl

/-- Claim C10: the orchestrator scores every transaction from the profile
snapshot and velocity count read before the record is inserted and before
the profile is updated: the stored probability, risk level and explanation
equal those of `predict_fraud` on the pre-state reads, the
`avg_user_amount` feature is the pre-update average, the update adds the
transaction's amount to the profile only afterwards, and a fresh
transaction is not among the rows its own velocity counted. -/
theorem C10_snapshot_ordering (score : List ℚ → ℚ) (th : ℚ) (s : DBState)
    (t : Transaction) :
    (process_transaction score th s t).1.fraud_probability =
      (predict_fraud score th t (get_user_profile s t.user_id)
        ((get_transaction_velocity s.transactions t.user_id (some t.timestamp) 1 : ℕ) : ℤ)).fraud_probability ∧
    (process_transaction score th s t).1.risk_level =
      (predict_fraud score th t (get_user_profile s t.user_id)
        ((get_transaction_velocity s.transactions t.user_id (some t.timestamp) 1 : ℕ) : ℤ)).risk_level ∧
    (process_transaction score th s t).1.explanation =
      (predict_fraud score th t (get_user_profile s t.user_id)
        ((get_transaction_velocity s.transactions t.user_id (some t.timestamp) 1 : ℕ) : ℤ)).explanation ∧
    dictGet (predict_fraud score th t (get_user_profile s t.user_id)
        ((get_transaction_velocity s.transactions t.user_id (some t.timestamp) 1 : ℕ) : ℤ)).features
        ("avg_user_amount") 0 = (get_user_profile s t.user_id).avg_amount ∧
    (get_user_profile (process_transaction score th s t).2 t.user_id).transaction_count =
      (get_user_profile s t.user_id).transaction_count + 1 ∧
    (get_user_profile (process_transaction score th s t).2 t.user_id).avg_amount =
      ((get_user_profile s t.user_id).avg_amount *
        ((get_user_profile s t.user_id).transaction_count : ℚ) + t.amount) /
        (((get_user_profile s t.user_id).transaction_count : ℚ) + 1) ∧
    ((∀ r ∈ s.transactions, r.transaction_id ≠ t.transaction_id) →
      (process_transaction score th s t).1 ∉ s.transactions) := by
  have h2 : (process_transaction score th s t).2 =
      update_user_profile (insert_transaction s (process_transaction score th s t).1)
        t.user_id t.amount t.device_id t.location (some t.timestamp) := rfl
  refine ⟨rfl, rfl, rfl, feat_avg_user_amount t (get_user_profile s t.user_id) _, ?_, ?_, ?_⟩
  · rw [h2, get_user_profile_update]
    rfl
  · rw [h2, get_user_profile_update]
    rfl
  · intro h hmem
    exact h _ hmem rfl

/-- Witness for C10: processing a fresh transaction against an empty
database — the stored record is not among the (empty) pre-state rows its
velocity counted. -/
theorem C10_snapshot_ordering_witness :
    (process_transaction constScore (1 / 2) emptyDB txnKnown).1 ∉ emptyDB.transactions ∧
    (get_user_profile (process_transaction constScore (1 / 2) emptyDB txnKnown).2
      txnKnown.user_id).transaction_count =
      (get_user_profile emptyDB txnKnown.user_id).transaction_count + 1 := by
  have h := C10_snapshot_ordering constScore (1 / 2) emptyDB txnKnown
  exact ⟨h.2.2.2.2.2.2 (by simp [emptyDB]), h.2.2.2.2.1⟩

end FraudShield
